import Mathlib

set_option linter.unusedVariables false

/-!
Shallow embedding of the OpenGL binding layer in kitty/gl.h (a CPython
extension module).  Each C wrapper function is translated into a pure Lean
function over an explicit driver oracle (the native driver's observable
behaviour for one call) and the process-wide error-checking flag.  Each
operation returns both its CPython-level outcome (a Python value or a raised
exception) and a trace of the externally visible events it performs (native
calls, GIL release/acquire, glGetError queries, heap alloc/free), so that
claims about call ordering and lock discipline are statable.
-/

namespace KittyGL

/-- Kinds of Python exceptions raised by the module.  sysError models the
CPython behaviour of a C function returning NULL without setting an
exception (CPython then raises SystemError at the boundary). -/
inductive PyExcKind where
  | valueError
  | typeError
  | memoryError
  | overflowError
  | runtimeError
  | sysError
  deriving DecidableEq, Repr

/-- A raised Python exception: kind plus message. -/
structure PyErr where
  kind : PyExcKind
  msg : String
  deriving DecidableEq, Repr

/-- Python values produced by the wrappers. -/
inductive PyValue where
  | none
  | int (n : Nat)
  | tuple (xs : List PyValue)
  | bytes (s : List Nat)

/-- Externally visible events performed by a wrapper, in order. -/
inductive Event where
  | releaseGIL
  | acquireGIL
  | nativeCall (name : String)
  | errorQuery
  | alloc (size : Nat)
  | free
  deriving DecidableEq, Repr

/-- True exactly on nativeCall events. -/
def Event.isNativeCall : Event → Bool
  | .nativeCall _ => true
  | _ => false

/-- Outcome of one wrapper invocation: the CPython result and the event
trace. -/
structure OpResult where
  result : Except PyErr PyValue
  trace : List Event

/-- Driver oracle: the native driver's observable behaviour during one
wrapper invocation, plus whether host heap allocations succeed. -/
structure Driver where
  /-- what glGetError returns when queried once -/
  errorCode : Nat
  /-- the stream of handles a glGen* call writes into the scratch array -/
  genHandles : Nat → Nat
  /-- what glGetString returns (none models a NULL return) -/
  getStringResult : Option (List Nat)
  /-- what glCreateProgram returns (0 models failure) -/
  createProgramResult : Nat
  /-- the program info log bytes held by the driver (no terminator) -/
  infoLog : List Nat
  /-- the shader info log bytes held by the driver (no terminator) -/
  shaderInfoLog : List Nat
  /-- whether host heap allocations (PyMem, PyTuple_New, ...) succeed -/
  allocOk : Bool
  /-- the GLEW_VERSION_4_5 runtime capability flag -/
  glewVersion45 : Bool

/-- Source line 19: static int _enable_error_checking = 1; the flag's value
at module load. -/
def initial_enable_error_checking : Bool := true

def GL_NO_ERROR : Nat := 0
def GL_INVALID_ENUM : Nat := 0x0500
def GL_INVALID_VALUE : Nat := 0x0501
def GL_INVALID_OPERATION : Nat := 0x0502
def GL_STACK_OVERFLOW : Nat := 0x0503
def GL_STACK_UNDERFLOW : Nat := 0x0504
def GL_OUT_OF_MEMORY : Nat := 0x0505
def GL_INVALID_FRAMEBUFFER_OPERATION : Nat := 0x0506

/-- The SET_GL_ERR macro: maps the code returned by one glGetError query to
the Python exception it sets (none when no exception is set). -/
def SET_GL_ERR (code : Nat) : Option PyErr :=
  if code = GL_NO_ERROR then none
  else if code = GL_INVALID_ENUM then
    some ⟨.valueError, "An enum value is invalid (GL_INVALID_ENUM)"⟩
  else if code = GL_INVALID_VALUE then
    some ⟨.valueError, "An numeric value is invalid (GL_INVALID_VALUE)"⟩
  else if code = GL_INVALID_OPERATION then
    some ⟨.valueError, "This operation is not allowed in the current state (GL_INVALID_OPERATION)"⟩
  else if code = GL_INVALID_FRAMEBUFFER_OPERATION then
    some ⟨.valueError, "The framebuffer object is not complete (GL_INVALID_FRAMEBUFFER_OPERATION)"⟩
  else if code = GL_OUT_OF_MEMORY then
    some ⟨.memoryError, "There is not enough memory left to execute the command. (GL_OUT_OF_MEMORY)"⟩
  else if code = GL_STACK_UNDERFLOW then
    some ⟨.overflowError, "An attempt has been made to perform an operation that would cause an internal stack to underflow. (GL_STACK_UNDERFLOW)"⟩
  else if code = GL_STACK_OVERFLOW then
    some ⟨.overflowError, "An attempt has been made to perform an operation that would cause an internal stack to underflow. (GL_STACK_OVERFLOW)"⟩
  else
    some ⟨.runtimeError, "An unknown OpenGL error occurred."⟩

/-- The CHECK_ERROR macro, result part: when the flag is set, query the
error state and fail on a translated error; when clear, succeed returning
None without touching the error state. -/
def CHECK_ERROR (flag : Bool) (d : Driver) : Except PyErr PyValue :=
  if flag then
    match SET_GL_ERR d.errorCode with
    | some e => .error e
    | none => .ok .none
  else .ok .none

/-- The CHECK_ERROR macro, trace part: one glGetError query when the flag
is set, nothing otherwise. -/
def checkTrace (flag : Bool) : List Event :=
  if flag then [Event.errorQuery] else []

/-- enable_automatic_error_checking: sets the flag to the truthiness of the
argument and returns None. -/
def enable_automatic_error_checking (truthy : Bool) : Bool × PyValue :=
  (truthy, .none)

/-- GetString: calls glGetString; on a NULL result runs SET_GL_ERR
unconditionally (regardless of the error-checking flag) and fails;
otherwise returns the bytes. -/
def GetString (flag : Bool) (d : Driver) (name : Nat) : OpResult :=
  match d.getStringResult with
  | Option.none =>
      { result := .error ((SET_GL_ERR d.errorCode).getD ⟨.sysError, "NULL result without error"⟩)
        trace := [.nativeCall "glGetString", .errorQuery] }
  | some bs =>
      { result := .ok (.bytes bs)
        trace := [.nativeCall "glGetString"] }

/-- CreateProgram: calls glCreateProgram; on a zero handle runs SET_GL_ERR
unconditionally and fails; otherwise returns the handle. -/
def CreateProgram (flag : Bool) (d : Driver) : OpResult :=
  if d.createProgramResult = 0 then
    { result := .error ((SET_GL_ERR d.errorCode).getD ⟨.sysError, "NULL result without error"⟩)
      trace := [.nativeCall "glCreateProgram", .errorQuery] }
  else
    { result := .ok (.int d.createProgramResult)
      trace := [.nativeCall "glCreateProgram"] }

/-- Clear: blocking call, glClear bracketed by GIL release/acquire, then
CHECK_ERROR. -/
def Clear (flag : Bool) (d : Driver) (mask : Nat) : OpResult :=
  { result := CHECK_ERROR flag d
    trace := [.releaseGIL, .nativeCall "glClear", .acquireGIL] ++ checkTrace flag }

/-- Viewport: glViewport then CHECK_ERROR, GIL held throughout. -/
def Viewport (flag : Bool) (d : Driver) (x y w h : Nat) : OpResult :=
  { result := CHECK_ERROR flag d
    trace := [.nativeCall "glViewport"] ++ checkTrace flag }

/-- Uniform2ui: glUniform2ui then CHECK_ERROR, GIL held throughout. -/
def Uniform2ui (flag : Bool) (d : Driver) (location : Int) (x y : Nat) : OpResult :=
  { result := CHECK_ERROR flag d
    trace := [.nativeCall "glUniform2ui"] ++ checkTrace flag }

/-- Uniform1i: glUniform1i then CHECK_ERROR, GIL held throughout. -/
def Uniform1i (flag : Bool) (d : Driver) (location : Int) (x : Int) : OpResult :=
  { result := CHECK_ERROR flag d
    trace := [.nativeCall "glUniform1i"] ++ checkTrace flag }

/-- Uniform2f: glUniform2f then CHECK_ERROR, GIL held throughout; the float
arguments are forwarded opaquely. -/
def Uniform2f (flag : Bool) (d : Driver) (location : Int) (x y : Float) : OpResult :=
  { result := CHECK_ERROR flag d
    trace := [.nativeCall "glUniform2f"] ++ checkTrace flag }

/-- Uniform4f: glUniform4f then CHECK_ERROR, GIL held throughout; the float
arguments are forwarded opaquely. -/
def Uniform4f (flag : Bool) (d : Driver) (location : Int) (x y a b : Float) : OpResult :=
  { result := CHECK_ERROR flag d
    trace := [.nativeCall "glUniform4f"] ++ checkTrace flag }

/-- Uniform3fv: decodes the third argument as a raw pointer with
PyLong_AsVoidPtr and passes it straight to glUniform3fv with NO null
check, then CHECK_ERROR; GIL held throughout.  The pointer is modelled as
a Nat, 0 being NULL. -/
def Uniform3fv (flag : Bool) (d : Driver) (location : Int) (count : Nat) (l : Nat) : OpResult :=
  { result := CHECK_ERROR flag d
    trace := [.nativeCall "glUniform3fv"] ++ checkTrace flag }

/-- DrawArrays: blocking call, glDrawArrays bracketed by GIL
release/acquire, then CHECK_ERROR. -/
def DrawArrays (flag : Bool) (d : Driver) (mode first : Int) (count : Nat) : OpResult :=
  { result := CHECK_ERROR flag d
    trace := [.releaseGIL, .nativeCall "glDrawArrays", .acquireGIL] ++ checkTrace flag }

/-- MultiDrawArrays: decodes two raw pointers with PyLong_AsVoidPtr and
passes them to glMultiDrawArrays with NO null check; blocking call
bracketed by GIL release/acquire, then CHECK_ERROR. -/
def MultiDrawArrays (flag : Bool) (d : Driver) (mode : Int) (a b : Nat) (draw_count : Nat) : OpResult :=
  { result := CHECK_ERROR flag d
    trace := [.releaseGIL, .nativeCall "glMultiDrawArrays", .acquireGIL] ++ checkTrace flag }

/-- DrawArraysInstanced: blocking call bracketed by GIL release/acquire,
then CHECK_ERROR. -/
def DrawArraysInstanced (flag : Bool) (d : Driver) (mode first : Int) (count primcount : Nat) : OpResult :=
  { result := CHECK_ERROR flag d
    trace := [.releaseGIL, .nativeCall "glDrawArraysInstanced", .acquireGIL] ++ checkTrace flag }

/-- TexStorage3D: blocking call, glTexStorage3D bracketed by GIL
release/acquire, then CHECK_ERROR. -/
def TexStorage3D (flag : Bool) (d : Driver) (target : Int) (levels : Nat) (fmt : Int) (width height depth : Nat) : OpResult :=
  { result := CHECK_ERROR flag d
    trace := [.releaseGIL, .nativeCall "glTexStorage3D", .acquireGIL] ++ checkTrace flag }

/-- TexSubImage3D: decodes the pixel argument as a raw pointer; a NULL
pointer fails with TypeError before any native call; otherwise
glTexSubImage3D is a blocking call bracketed by GIL release/acquire,
then CHECK_ERROR. -/
def TexSubImage3D (flag : Bool) (d : Driver) (target level x y z : Int) (width height depth : Nat) (fmt ty : Int) (pixels : Nat) : OpResult :=
  if pixels = 0 then
    { result := .error ⟨.typeError, "Not a valid data pointer"⟩, trace := [] }
  else
    { result := CHECK_ERROR flag d
      trace := [.releaseGIL, .nativeCall "glTexSubImage3D", .acquireGIL] ++ checkTrace flag }

/-- GetTexImage: decodes the pixel argument as a raw pointer; a NULL
pointer fails with TypeError before any native call; otherwise
glGetTexImage is a blocking call bracketed by GIL release/acquire, then
CHECK_ERROR. -/
def GetTexImage (flag : Bool) (d : Driver) (target level fmt ty : Int) (pixels : Nat) : OpResult :=
  if pixels = 0 then
    { result := .error ⟨.typeError, "Not a valid data pointer"⟩, trace := [] }
  else
    { result := CHECK_ERROR flag d
      trace := [.releaseGIL, .nativeCall "glGetTexImage", .acquireGIL] ++ checkTrace flag }

/-- NamedBufferData: decodes the address argument as a raw pointer; a NULL
pointer fails with TypeError before any native call; otherwise a blocking
call bracketed by GIL release/acquire: glNamedBufferData when the driver
reports GLEW_VERSION_4_5, else a bind/glBufferData/unbind sequence on
GL_TEXTURE_BUFFER; then CHECK_ERROR. -/
def NamedBufferData (flag : Bool) (d : Driver) (target size : Nat) (address : Nat) (usage : Int) : OpResult :=
  if address = 0 then
    { result := .error ⟨.typeError, "Not a valid data pointer"⟩, trace := [] }
  else
    { result := CHECK_ERROR flag d
      trace := [Event.releaseGIL] ++
        (if d.glewVersion45 then [Event.nativeCall "glNamedBufferData"]
         else [Event.nativeCall "glBindBuffer", Event.nativeCall "glBufferData",
               Event.nativeCall "glBindBuffer"]) ++
        [Event.acquireGIL] ++ checkTrace flag }

/-- VertexAttribPointer: decodes the offset argument as a raw pointer with
PyLong_AsVoidPtr and passes it straight to glVertexAttribPointer with NO
null check, then CHECK_ERROR; GIL held throughout. -/
def VertexAttribPointer (flag : Bool) (d : Driver) (index : Nat) (size ty : Int) (normalized : Bool) (stride : Nat) (l : Nat) : OpResult :=
  { result := CHECK_ERROR flag d
    trace := [.nativeCall "glVertexAttribPointer"] ++ checkTrace flag }

/-- BindBuffer: glBindBuffer then CHECK_ERROR, GIL held throughout. -/
def BindBuffer (flag : Bool) (d : Driver) (tgt : Int) (buf_id : Nat) : OpResult :=
  { result := CHECK_ERROR flag d
    trace := [.nativeCall "glBindBuffer"] ++ checkTrace flag }

/-- BindTexture: glBindTexture then CHECK_ERROR, GIL held throughout. -/
def BindTexture (flag : Bool) (d : Driver) (target : Int) (tex_id : Nat) : OpResult :=
  { result := CHECK_ERROR flag d
    trace := [.nativeCall "glBindTexture"] ++ checkTrace flag }

/-- BindVertexArray: glBindVertexArray then CHECK_ERROR, GIL held
throughout. -/
def BindVertexArray (flag : Bool) (d : Driver) (array_id : Nat) : OpResult :=
  { result := CHECK_ERROR flag d
    trace := [.nativeCall "glBindVertexArray"] ++ checkTrace flag }

/-- TexParameteri: glTexParameteri then CHECK_ERROR, GIL held throughout. -/
def TexParameteri (flag : Bool) (d : Driver) (target name param : Int) : OpResult :=
  { result := CHECK_ERROR flag d
    trace := [.nativeCall "glTexParameteri"] ++ checkTrace flag }

/-- PixelStorei: glPixelStorei then CHECK_ERROR, GIL held throughout. -/
def PixelStorei (flag : Bool) (d : Driver) (name param : Int) : OpResult :=
  { result := CHECK_ERROR flag d
    trace := [.nativeCall "glPixelStorei"] ++ checkTrace flag }

/-- The zero-initialized scratch array GLuint arrays[256] after a glGen*
call with count n: the first n entries hold the driver's handles, the
rest stay zero. -/
def scratchAfterGen (d : Driver) (n : Nat) : Nat → Nat :=
  fun i => if i < n then d.genHandles i else 0

/-- GenVertexArrays: rejects n above 256 with ValueError before any native
call; otherwise calls glGenVertexArrays into the scratch array, runs
CHECK_ERROR, and returns the single handle as a scalar when n is 1, else
a tuple of the n handles in scratch-array order (MemoryError when the
tuple or its items cannot be allocated). -/
def GenVertexArrays (flag : Bool) (d : Driver) (n : Nat) : OpResult :=
  if n > 256 then
    { result := .error ⟨.valueError, "Generating more than 256 arrays in a single call is not supported"⟩
      trace := [] }
  else
    let t := [Event.nativeCall "glGenVertexArrays"] ++ checkTrace flag
    match CHECK_ERROR flag d with
    | .error e => { result := .error e, trace := t }
    | .ok _ =>
      if n = 1 then { result := .ok (.int (scratchAfterGen d n 0)), trace := t }
      else if d.allocOk then
        { result := .ok (.tuple ((List.range n).map fun i => .int (scratchAfterGen d n i)))
          trace := t }
      else { result := .error ⟨.memoryError, ""⟩, trace := t }

/-- GenTextures: same policy as GenVertexArrays, for texture handles. -/
def GenTextures (flag : Bool) (d : Driver) (n : Nat) : OpResult :=
  if n > 256 then
    { result := .error ⟨.valueError, "Generating more than 256 textures in a single call is not supported"⟩
      trace := [] }
  else
    let t := [Event.nativeCall "glGenTextures"] ++ checkTrace flag
    match CHECK_ERROR flag d with
    | .error e => { result := .error e, trace := t }
    | .ok _ =>
      if n = 1 then { result := .ok (.int (scratchAfterGen d n 0)), trace := t }
      else if d.allocOk then
        { result := .ok (.tuple ((List.range n).map fun i => .int (scratchAfterGen d n i)))
          trace := t }
      else { result := .error ⟨.memoryError, ""⟩, trace := t }

/-- GenBuffers: same policy as GenVertexArrays, for buffer handles. -/
def GenBuffers (flag : Bool) (d : Driver) (n : Nat) : OpResult :=
  if n > 256 then
    { result := .error ⟨.valueError, "Generating more than 256 buffers in a single call is not supported"⟩
      trace := [] }
  else
    let t := [Event.nativeCall "glGenBuffers"] ++ checkTrace flag
    match CHECK_ERROR flag d with
    | .error e => { result := .error e, trace := t }
    | .ok _ =>
      if n = 1 then { result := .ok (.int (scratchAfterGen d n 0)), trace := t }
      else if d.allocOk then
        { result := .ok (.tuple ((List.range n).map fun i => .int (scratchAfterGen d n i)))
          trace := t }
      else { result := .error ⟨.memoryError, ""⟩, trace := t }

/-- What glGetProgramiv / glGetShaderiv report for GL_INFO_LOG_LENGTH, per
the GL specification: the log length including the null terminator, or 0
when there is no log. -/
def infoLogLengthReport (log : List Nat) : Nat :=
  if log = [] then 0 else log.length + 1

/-- What glGetProgramInfoLog / glGetShaderInfoLog do given a buffer of
bufSize bytes, per the GL specification: write at most bufSize - 1 log
bytes plus a terminator and report the number of bytes written (excluding
the terminator), returned here with the bytes themselves. -/
def infoLogFetch (log : List Nat) (bufSize : Nat) : Nat × List Nat :=
  let w := min log.length (bufSize - 1)
  (w, log.take w)

/-- GetProgramInfoLog: queries GL_INFO_LOG_LENGTH via glGetProgramiv,
allocates a scratch buffer of log_len + 10 bytes with PyMem_Calloc
(MemoryError on allocation failure), fetches the log with
glGetProgramInfoLog, returns the bytes written trimmed to the reported
written length, and frees the scratch buffer before returning. -/
def GetProgramInfoLog (d : Driver) (program_id : Nat) : OpResult :=
  let log_len := infoLogLengthReport d.infoLog
  if d.allocOk then
    let fetched := infoLogFetch d.infoLog log_len
    { result := .ok (.bytes fetched.2)
      trace := [.nativeCall "glGetProgramiv", .alloc (log_len + 10),
                .nativeCall "glGetProgramInfoLog", .free] }
  else
    { result := .error ⟨.memoryError, ""⟩
      trace := [.nativeCall "glGetProgramiv", .alloc (log_len + 10)] }

/-- GetShaderInfoLog: same policy as GetProgramInfoLog, against
glGetShaderiv / glGetShaderInfoLog. -/
def GetShaderInfoLog (d : Driver) (shader_id : Nat) : OpResult :=
  let log_len := infoLogLengthReport d.shaderInfoLog
  if d.allocOk then
    let fetched := infoLogFetch d.shaderInfoLog log_len
    { result := .ok (.bytes fetched.2)
      trace := [.nativeCall "glGetShaderiv", .alloc (log_len + 10),
                .nativeCall "glGetShaderInfoLog", .free] }
  else
    { result := .error ⟨.memoryError, ""⟩
      trace := [.nativeCall "glGetShaderiv", .alloc (log_len + 10)] }

/-- The build/runtime environment the capability bootstrap observes. -/
structure BootEnv where
  /-- whether this is the Apple build (the whole body is compiled out) -/
  apple : Bool
  /-- whether glewInit() returns GLEW_OK -/
  glewInitOk : Bool
  /-- glewGetErrorString for a failed glewInit -/
  glewErrString : String
  /-- whether GLEW_ARB_texture_storage is present -/
  hasTextureStorage : Bool
  /-- whether GLEW_ARB_texture_buffer_object_rgb32 is present -/
  hasTextureBufferObjectRgb32 : Bool

/-- The _glewInit wrapper: on Apple a no-op success; otherwise fails with
RuntimeError when glewInit fails or when either required ARB extension is
missing, checking texture_storage first, and succeeds returning None when
everything is present. -/
def glewInitWrapper (env : BootEnv) : Except PyErr PyValue :=
  if env.apple then .ok .none
  else if ¬ env.glewInitOk then
    .error ⟨.runtimeError, "GLEW init failed: " ++ env.glewErrString⟩
  else if ¬ env.hasTextureStorage then
    .error ⟨.runtimeError, "The OpenGL driver on this system is missing the required extension: ARB_texture_storage"⟩
  else if ¬ env.hasTextureBufferObjectRgb32 then
    .error ⟨.runtimeError, "The OpenGL driver on this system is missing the required extension: ARB_texture_buffer_object_rgb32"⟩
  else .ok .none

/-- The names published by add_module_gl_constants, in source order. -/
def glConstantNames : List String :=
  ["GL_VERSION", "GL_VENDOR", "GL_SHADING_LANGUAGE_VERSION", "GL_RENDERER",
   "GL_TRIANGLE_FAN", "GL_TRIANGLE_STRIP", "GL_TRIANGLES", "GL_LINE_LOOP",
   "GL_COLOR_BUFFER_BIT", "GL_VERTEX_SHADER", "GL_FRAGMENT_SHADER",
   "GL_TRUE", "GL_FALSE", "GL_COMPILE_STATUS", "GL_LINK_STATUS",
   "GL_TEXTURE0", "GL_TEXTURE1", "GL_TEXTURE2", "GL_TEXTURE3", "GL_TEXTURE4",
   "GL_TEXTURE5", "GL_TEXTURE6", "GL_TEXTURE7", "GL_TEXTURE8",
   "GL_MAX_ARRAY_TEXTURE_LAYERS", "GL_MAX_TEXTURE_SIZE", "GL_TEXTURE_2D_ARRAY",
   "GL_LINEAR", "GL_CLAMP_TO_EDGE", "GL_NEAREST",
   "GL_TEXTURE_MIN_FILTER", "GL_TEXTURE_MAG_FILTER",
   "GL_TEXTURE_WRAP_S", "GL_TEXTURE_WRAP_T", "GL_UNPACK_ALIGNMENT",
   "GL_R8", "GL_RED", "GL_UNSIGNED_BYTE", "GL_RGB32UI", "GL_RGBA",
   "GL_TEXTURE_BUFFER", "GL_STATIC_DRAW", "GL_STREAM_DRAW",
   "GL_SRC_ALPHA", "GL_ONE_MINUS_SRC_ALPHA",
   "GL_BLEND", "GL_FLOAT", "GL_ARRAY_BUFFER"]

/-- One GLC(x) step after another: publish each name in order with
PyModule_AddIntConstant (success given by the addOk oracle); on the first
failing publish, set MemoryError and stop, returning the names published
so far and the error; on success return all names and no error. -/
def addConstantsFrom (addOk : String → Bool) : List String → List String × Option PyErr
  | [] => ([], Option.none)
  | nm :: rest =>
    if addOk nm then
      let r := addConstantsFrom addOk rest
      (nm :: r.1, r.2)
    else ([], some ⟨.memoryError, ""⟩)

/-- add_module_gl_constants: publishes the fixed table of GL constants in
source order, aborting at the first failed publish with MemoryError. -/
def add_module_gl_constants (addOk : String → Bool) : List String × Option PyErr :=
  addConstantsFrom addOk glConstantNames

/-- Modelled from the spec: the module initialization step (the module
init code of this repository is not under src/); per the spec it
populates the Constant Registry by invoking add_module_gl_constants
exactly once at load time, yielding the published names and any
failure. -/
def moduleLoadRegistry (addOk : String → Bool) : List String × Option PyErr :=
  add_module_gl_constants addOk

/-! Helper lemmas. -/

theorem SET_GL_ERR_of_ne_zero (c : Nat) (h : c ≠ GL_NO_ERROR) :
    ∃ e, SET_GL_ERR c = some e := by
  unfold SET_GL_ERR
  rw [if_neg h]
  repeat' split
  all_goals exact ⟨_, rfl⟩

theorem SET_GL_ERR_kind_ne_typeError (c : Nat) (e : PyErr)
    (h : SET_GL_ERR c = some e) : e.kind ≠ PyExcKind.typeError := by
  unfold SET_GL_ERR at h
  repeat' split at h
  all_goals first
    | exact Option.noConfusion h
    | (obtain rfl : _ = e := Option.some.inj h; decide)

theorem CHECK_ERROR_ok (flag : Bool) (d : Driver) (h : d.errorCode = GL_NO_ERROR) :
    CHECK_ERROR flag d = .ok .none := by
  cases flag <;> simp [CHECK_ERROR, SET_GL_ERR, h]

theorem CHECK_ERROR_bad (d : Driver) (h : d.errorCode ≠ GL_NO_ERROR) :
    ∃ e, CHECK_ERROR true d = .error e := by
  obtain ⟨e, he⟩ := SET_GL_ERR_of_ne_zero d.errorCode h
  exact ⟨e, by simp [CHECK_ERROR, he]⟩

theorem checkTrace_no_release (flag : Bool) :
    Event.releaseGIL ∉ checkTrace flag ∧ Event.acquireGIL ∉ checkTrace flag := by
  cases flag <;> simp [checkTrace]

theorem checkTrace_filter_native (flag : Bool) :
    (checkTrace flag).filter Event.isNativeCall = [] := by
  cases flag <;> simp [checkTrace, Event.isNativeCall]

theorem infoLogFetch_full (log : List Nat) :
    infoLogFetch log (infoLogLengthReport log) = (log.length, log) := by
  by_cases h : log = []
  · subst h; simp [infoLogFetch, infoLogLengthReport]
  · simp [infoLogFetch, infoLogLengthReport, h]

theorem addConstantsFrom_eq (addOk : String → Bool) (l : List String) :
    addConstantsFrom addOk l =
      (l.takeWhile addOk,
       if l.all addOk then Option.none else some ⟨.memoryError, ""⟩) := by
  induction l with
  | nil => simp [addConstantsFrom]
  | cons nm rest ih =>
    by_cases h : addOk nm
    · simp [addConstantsFrom, h, ih, List.takeWhile_cons, List.all_cons]
    · simp [addConstantsFrom, h, List.takeWhile_cons, List.all_cons]

/-! Concrete drivers and environments used by witnesses and
counterexamples. -/

/-- A healthy driver: no pending native error, allocations succeed. -/
def exDriver : Driver :=
  { errorCode := GL_NO_ERROR
    genHandles := fun i => 100 + i
    getStringResult := some [107]
    createProgramResult := 3
    infoLog := [104, 105]
    shaderInfoLog := [119]
    allocOk := true
    glewVersion45 := true }

/-- A driver in a bad native state: glGetError reports GL_INVALID_ENUM,
glGetString and glCreateProgram report failure. -/
def exBadDriver : Driver :=
  { errorCode := GL_INVALID_ENUM
    genHandles := fun i => 100 + i
    getStringResult := Option.none
    createProgramResult := 0
    infoLog := []
    shaderInfoLog := []
    allocOk := true
    glewVersion45 := false }

/-! Claim theorems. -/

/-- C1: for every requested count N with 1 <= N <= 256, each of
GenVertexArrays, GenTextures and GenBuffers issues exactly one native
generate call and returns the N handles the driver wrote in driver order:
a scalar equal to the single handle when N = 1, and an ordered sequence of
length N whose i-th element is the driver's i-th handle when N > 1
(stated for a driver reporting no native error, with host allocation
succeeding). -/
theorem C1_batch_allocation (flag : Bool) (d : Driver) (n : Nat)
    (h0 : d.errorCode = GL_NO_ERROR) (ha : d.allocOk = true)
    (h1 : 1 ≤ n) (h2 : n ≤ 256) :
    ((GenVertexArrays flag d n).trace.filter Event.isNativeCall = [.nativeCall "glGenVertexArrays"]
      ∧ (n = 1 → (GenVertexArrays flag d n).result = .ok (.int (d.genHandles 0)))
      ∧ (1 < n → (GenVertexArrays flag d n).result =
          .ok (.tuple ((List.range n).map fun i => .int (d.genHandles i)))))
    ∧ ((GenTextures flag d n).trace.filter Event.isNativeCall = [.nativeCall "glGenTextures"]
      ∧ (n = 1 → (GenTextures flag d n).result = .ok (.int (d.genHandles 0)))
      ∧ (1 < n → (GenTextures flag d n).result =
          .ok (.tuple ((List.range n).map fun i => .int (d.genHandles i)))))
    ∧ ((GenBuffers flag d n).trace.filter Event.isNativeCall = [.nativeCall "glGenBuffers"]
      ∧ (n = 1 → (GenBuffers flag d n).result = .ok (.int (d.genHandles 0)))
      ∧ (1 < n → (GenBuffers flag d n).result =
          .ok (.tuple ((List.range n).map fun i => .int (d.genHandles i))))) := by
  have hc := CHECK_ERROR_ok flag d h0
  have hmap : ((List.range n).map fun i => PyValue.int (scratchAfterGen d n i)) =
      (List.range n).map fun i => PyValue.int (d.genHandles i) := by
    refine List.map_congr_left fun i hi => ?_
    simp [scratchAfterGen, List.mem_range.mp hi]
  have hn256 : ¬ n > 256 := by omega
  refine ⟨⟨?_, ?_, ?_⟩, ⟨?_, ?_, ?_⟩, ⟨?_, ?_, ?_⟩⟩ <;>
    simp only [GenVertexArrays, GenTextures, GenBuffers, hn256, if_false, hc, ha] <;>
  first
    | (intro hn
       have hne1 : ¬ n = 1 := by omega
       simp [hne1, hmap])
    | (intro hn
       simp [hn, scratchAfterGen])
    | (by_cases hn1 : n = 1 <;>
        simp [hn1, checkTrace_filter_native, Event.isNativeCall, List.filter_cons])

/-- C2: for every requested count N > 256, each of GenVertexArrays,
GenTextures and GenBuffers fails with a ValueError before issuing any
native call: the result is a usage error and the event trace is empty
(no native generate call, no handle consumed). -/
theorem C2_batch_over_limit (flag : Bool) (d : Driver) (n : Nat) (hn : 256 < n) :
    ((GenVertexArrays flag d n).result =
        .error ⟨.valueError, "Generating more than 256 arrays in a single call is not supported"⟩
      ∧ (GenVertexArrays flag d n).trace = [])
    ∧ ((GenTextures flag d n).result =
        .error ⟨.valueError, "Generating more than 256 textures in a single call is not supported"⟩
      ∧ (GenTextures flag d n).trace = [])
    ∧ ((GenBuffers flag d n).result =
        .error ⟨.valueError, "Generating more than 256 buffers in a single call is not supported"⟩
      ∧ (GenBuffers flag d n).trace = []) := by
  refine ⟨⟨?_, ?_⟩, ⟨?_, ?_⟩, ⟨?_, ?_⟩⟩ <;>
    simp only [GenVertexArrays, GenTextures, GenBuffers, if_pos hn]

/-- C2 witness: at N = 300 the three allocators fail with the usage
ValueError and an empty native trace. -/
theorem C2_batch_over_limit_witness :
    ((GenVertexArrays true exDriver 300).result =
        .error ⟨.valueError, "Generating more than 256 arrays in a single call is not supported"⟩
      ∧ (GenVertexArrays true exDriver 300).trace = [])
    ∧ ((GenTextures true exDriver 300).result =
        .error ⟨.valueError, "Generating more than 256 textures in a single call is not supported"⟩
      ∧ (GenTextures true exDriver 300).trace = [])
    ∧ ((GenBuffers true exDriver 300).result =
        .error ⟨.valueError, "Generating more than 256 buffers in a single call is not supported"⟩
      ∧ (GenBuffers true exDriver 300).trace = []) :=
  C2_batch_over_limit true exDriver 300 (by decide)

/-- C1 witness: at N = 2 (and N = 1 via the same instantiation shape) the
allocator returns the driver's handles; hypotheses discharged at the
concrete healthy driver. -/
theorem C1_batch_allocation_witness :
    (GenVertexArrays true exDriver 2).result =
      .ok (.tuple ((List.range 2).map fun i => .int (exDriver.genHandles i))) :=
  (C1_batch_allocation true exDriver 2 rfl rfl (by decide) (by decide)).1.2.2 (by decide)

/-- C10: for a requested count N = 0, each of GenVertexArrays, GenTextures
and GenBuffers does not fail: it still issues the one native generate call
(with count 0) and returns an empty tuple, not a scalar and not an error
(stated for a driver reporting no native error, with host allocation
succeeding). -/
theorem C10_batch_zero (flag : Bool) (d : Driver)
    (h0 : d.errorCode = GL_NO_ERROR) (ha : d.allocOk = true) :
    ((GenVertexArrays flag d 0).result = .ok (.tuple [])
      ∧ (GenVertexArrays flag d 0).trace.filter Event.isNativeCall = [.nativeCall "glGenVertexArrays"])
    ∧ ((GenTextures flag d 0).result = .ok (.tuple [])
      ∧ (GenTextures flag d 0).trace.filter Event.isNativeCall = [.nativeCall "glGenTextures"])
    ∧ ((GenBuffers flag d 0).result = .ok (.tuple [])
      ∧ (GenBuffers flag d 0).trace.filter Event.isNativeCall = [.nativeCall "glGenBuffers"]) := by
  have hc := CHECK_ERROR_ok flag d h0
  refine ⟨⟨?_, ?_⟩, ⟨?_, ?_⟩, ⟨?_, ?_⟩⟩ <;>
    simp [GenVertexArrays, GenTextures, GenBuffers, hc, ha, checkTrace_filter_native,
      Event.isNativeCall]

/-- C10 witness: at the concrete healthy driver, a zero-count generate
returns the empty tuple. -/
theorem C10_batch_zero_witness :
    (GenVertexArrays true exDriver 0).result = .ok (.tuple []) :=
  (C10_batch_zero true exDriver rfl rfl).1.1

/-- C3 counterexample: the claim says that while the flag is disabled no
wrapped operation inspects the native error state, and that an operation
that would fail on bad native state returns successfully.  GetString with
the flag disabled, a NULL glGetString result and GL_INVALID_ENUM pending
still queries glGetError and raises the translated ValueError. -/
theorem C3_counterexample :
    (GetString false exBadDriver 7).result =
      .error ⟨.valueError, "An enum value is invalid (GL_INVALID_ENUM)"⟩
    ∧ Event.errorQuery ∈ (GetString false exBadDriver 7).trace := by
  constructor
  · rfl
  · decide

/-- C3 (amended): the Error-Checking Mode flag defaults to enabled at
module load, the toggle stores the truthiness of its argument, and every
CHECK_ERROR-guarded operation (Clear here) reads the flag before deciding
whether to invoke the Error Translator: disabled, it performs no
glGetError query and succeeds even in a bad native state; enabled, the
same bad state fails the call.  Operations that detect failure from a
null native return value (GetString, CreateProgram) run the Error
Translator unconditionally, regardless of the flag. -/
theorem C3_error_checking_mode (d : Driver) (m v : Nat)
    (hbad : d.errorCode ≠ GL_NO_ERROR) :
    initial_enable_error_checking = true
    ∧ (∀ b, (enable_automatic_error_checking b).1 = b)
    ∧ (Clear false d m).result = .ok .none
    ∧ Event.errorQuery ∉ (Clear false d m).trace
    ∧ (∃ e, (Clear true d m).result = .error e)
    ∧ (d.getStringResult = Option.none →
        Event.errorQuery ∈ (GetString false d v).trace)
    ∧ (d.createProgramResult = 0 →
        Event.errorQuery ∈ (CreateProgram false d).trace) := by
  obtain ⟨e, he⟩ := CHECK_ERROR_bad d hbad
  refine ⟨rfl, fun b => rfl, rfl, ?_, ⟨e, he⟩, ?_, ?_⟩
  · simp [Clear, checkTrace]
  · intro hs; simp [GetString, hs]
  · intro hs; simp [CreateProgram, hs]

/-- C3 witness: the amended flag behaviour at the concrete bad-state
driver. -/
theorem C3_error_checking_mode_witness :
    (Clear false exBadDriver 1).result = .ok .none
    ∧ (∃ e, (Clear true exBadDriver 1).result = .error e) :=
  ⟨(C3_error_checking_mode exBadDriver 1 1 (by decide)).2.2.1,
   (C3_error_checking_mode exBadDriver 1 1 (by decide)).2.2.2.2.1⟩

/-- C4 counterexample: the claim says Uniform3fv fails with a TypeError
and issues no native call when the decoded pointer is null.  Uniform3fv
with a null pointer issues the native glUniform3fv call and returns
successfully. -/
theorem C4_counterexample :
    (Uniform3fv true exDriver 0 4 0).result = .ok .none
    ∧ Event.nativeCall "glUniform3fv" ∈ (Uniform3fv true exDriver 0 4 0).trace := by
  constructor
  · rfl
  · decide

/-- C4 (amended): of the operations receiving a pointer-as-integer
argument, TexSubImage3D, GetTexImage and NamedBufferData fail with a
TypeError and issue no native call when the decoded pointer is null,
independently of Error-Checking Mode and of native error state; but
Uniform3fv, MultiDrawArrays and VertexAttribPointer perform no null
check: they issue their native call with the null pointer, and any
failure they raise comes from the Error Translator, never a TypeError. -/
theorem C4_null_pointer (flag : Bool) (d : Driver)
    (target level x y z mode first size ty : Int) (normalized : Bool)
    (width height depth cnt stride buf usage loc : Nat) :
    ((TexSubImage3D flag d target level x y z width height depth size ty 0).result =
        .error ⟨.typeError, "Not a valid data pointer"⟩
      ∧ (TexSubImage3D flag d target level x y z width height depth size ty 0).trace = [])
    ∧ ((GetTexImage flag d target level size ty 0).result =
        .error ⟨.typeError, "Not a valid data pointer"⟩
      ∧ (GetTexImage flag d target level size ty 0).trace = [])
    ∧ ((NamedBufferData flag d buf width 0 (Int.ofNat usage)).result =
        .error ⟨.typeError, "Not a valid data pointer"⟩
      ∧ (NamedBufferData flag d buf width 0 (Int.ofNat usage)).trace = [])
    ∧ (Event.nativeCall "glUniform3fv" ∈ (Uniform3fv flag d mode cnt 0).trace
      ∧ ∀ e, (Uniform3fv flag d mode cnt 0).result = .error e → e.kind ≠ .typeError)
    ∧ (Event.nativeCall "glMultiDrawArrays" ∈ (MultiDrawArrays flag d mode 0 0 cnt).trace
      ∧ ∀ e, (MultiDrawArrays flag d mode 0 0 cnt).result = .error e → e.kind ≠ .typeError)
    ∧ (Event.nativeCall "glVertexAttribPointer" ∈
          (VertexAttribPointer flag d loc size ty normalized stride 0).trace
      ∧ ∀ e, (VertexAttribPointer flag d loc size ty normalized stride 0).result = .error e →
          e.kind ≠ .typeError) := by
  have hck : ∀ e, CHECK_ERROR flag d = .error e → e.kind ≠ PyExcKind.typeError := by
    intro e he
    unfold CHECK_ERROR at he
    split at he
    · split at he
      · next h => exact SET_GL_ERR_kind_ne_typeError d.errorCode e (by rw [h]; congr 1; exact (Except.error.inj he))
      · exact Except.noConfusion he
    · exact Except.noConfusion he
  refine ⟨⟨rfl, rfl⟩, ⟨rfl, rfl⟩, ⟨rfl, rfl⟩, ⟨?_, hck⟩, ⟨?_, hck⟩, ⟨?_, hck⟩⟩ <;>
    simp [Uniform3fv, MultiDrawArrays, VertexAttribPointer]

/-- C4 witness: the amended null-pointer behaviour at concrete inputs. -/
theorem C4_null_pointer_witness :
    (TexSubImage3D true exDriver 1 0 0 0 0 4 4 1 1 1 0).result =
      .error ⟨.typeError, "Not a valid data pointer"⟩ :=
  (C4_null_pointer true exDriver 1 0 0 0 0 1 0 1 1 true 4 4 1 0 0 3 0 0).1.1

/-- C5 counterexample: the claim says an unknown non-zero native code
produces a failure whose description includes the raw code.  Two distinct
unknown codes produce literally identical failures with the fixed message
"An unknown OpenGL error occurred.", which therefore cannot include the
raw code. -/
theorem C5_counterexample :
    SET_GL_ERR 0x4242 = some ⟨.runtimeError, "An unknown OpenGL error occurred."⟩
    ∧ SET_GL_ERR 0x4242 = SET_GL_ERR 0x4343
    ∧ (0x4242 : Nat) ≠ 0x4343 := by
  refine ⟨rfl, rfl, by decide⟩

/-- C5 (amended): the Error Translator maps GL_NO_ERROR to no failure;
GL_INVALID_ENUM, GL_INVALID_VALUE, GL_INVALID_OPERATION and
GL_INVALID_FRAMEBUFFER_OPERATION to ValueError; GL_OUT_OF_MEMORY to
MemoryError (a category distinct from the argument errors);
GL_STACK_UNDERFLOW and GL_STACK_OVERFLOW to OverflowError; and every
other non-zero code to a RuntimeError with the fixed generic description
"An unknown OpenGL error occurred.", which does not include the raw
code. -/
theorem C5_error_translation :
    SET_GL_ERR GL_NO_ERROR = Option.none
    ∧ (SET_GL_ERR GL_INVALID_ENUM).map PyErr.kind = some .valueError
    ∧ (SET_GL_ERR GL_INVALID_VALUE).map PyErr.kind = some .valueError
    ∧ (SET_GL_ERR GL_INVALID_OPERATION).map PyErr.kind = some .valueError
    ∧ (SET_GL_ERR GL_INVALID_FRAMEBUFFER_OPERATION).map PyErr.kind = some .valueError
    ∧ (SET_GL_ERR GL_OUT_OF_MEMORY).map PyErr.kind = some .memoryError
    ∧ (SET_GL_ERR GL_STACK_UNDERFLOW).map PyErr.kind = some .overflowError
    ∧ (SET_GL_ERR GL_STACK_OVERFLOW).map PyErr.kind = some .overflowError
    ∧ PyExcKind.memoryError ≠ PyExcKind.valueError
    ∧ (∀ c, c ≠ GL_NO_ERROR →
        c ∉ [GL_INVALID_ENUM, GL_INVALID_VALUE, GL_INVALID_OPERATION,
             GL_INVALID_FRAMEBUFFER_OPERATION, GL_OUT_OF_MEMORY,
             GL_STACK_UNDERFLOW, GL_STACK_OVERFLOW] →
        SET_GL_ERR c = some ⟨.runtimeError, "An unknown OpenGL error occurred."⟩) := by
  refine ⟨rfl, rfl, rfl, rfl, rfl, rfl, rfl, rfl, by decide, ?_⟩
  intro c h0 hmem
  simp only [List.mem_cons, List.mem_singleton, not_or] at hmem
  obtain ⟨h1, h2, h3, h4, h5, h6, h7, -⟩ := hmem
  unfold SET_GL_ERR
  rw [if_neg h0, if_neg h1, if_neg h2, if_neg h3, if_neg h4, if_neg h5, if_neg h6, if_neg h7]

/-- C5 witness: the unknown-code clause of the amended mapping at the
concrete code 0x4242. -/
theorem C5_error_translation_witness :
    SET_GL_ERR 0x4242 = some ⟨.runtimeError, "An unknown OpenGL error occurred."⟩ :=
  C5_error_translation.2.2.2.2.2.2.2.2.2 0x4242 (by decide) (by decide)

/-- C6: GetProgramInfoLog and GetShaderInfoLog query the required log
length, allocate a scratch buffer of that length plus 10 bytes, fetch the
log natively, return exactly the bytes written trimmed to the reported
written length, and free the scratch buffer; in the zero-length case the
result is the well-formed empty byte string and the buffer of 10 bytes is
still allocated and freed (stated with host allocation succeeding). -/
theorem C6_info_log (d : Driver) (pid sid : Nat) (ha : d.allocOk = true) :
    ((GetProgramInfoLog d pid).result = .ok (.bytes d.infoLog)
      ∧ (GetProgramInfoLog d pid).trace =
          [.nativeCall "glGetProgramiv", .alloc (infoLogLengthReport d.infoLog + 10),
           .nativeCall "glGetProgramInfoLog", .free])
    ∧ ((GetShaderInfoLog d sid).result = .ok (.bytes d.shaderInfoLog)
      ∧ (GetShaderInfoLog d sid).trace =
          [.nativeCall "glGetShaderiv", .alloc (infoLogLengthReport d.shaderInfoLog + 10),
           .nativeCall "glGetShaderInfoLog", .free])
    ∧ (d.infoLog = [] → infoLogLengthReport d.infoLog = 0
        ∧ (GetProgramInfoLog d pid).result = .ok (.bytes [])) := by
  refine ⟨⟨?_, ?_⟩, ⟨?_, ?_⟩, ?_⟩
  · simp [GetProgramInfoLog, ha, infoLogFetch_full]
  · simp [GetProgramInfoLog, ha]
  · simp [GetShaderInfoLog, ha, infoLogFetch_full]
  · simp [GetShaderInfoLog, ha]
  · intro h
    refine ⟨by simp [infoLogLengthReport, h], ?_⟩
    simp [GetProgramInfoLog, ha, infoLogFetch_full, h]

/-- C6 witness: the log policy at the concrete healthy driver (log bytes
104, 105) and at the empty-log bad driver. -/
theorem C6_info_log_witness :
    (GetProgramInfoLog exDriver 3).result = .ok (.bytes [104, 105])
    ∧ (GetProgramInfoLog exBadDriver 3).result = .ok (.bytes []) :=
  ⟨(C6_info_log exDriver 3 3 rfl).1.1,
   ((C6_info_log exBadDriver 3 3 rfl).2.2 rfl).2⟩

theorem holdsLock_native_check (s : String) (flag : Bool) :
    Event.releaseGIL ∉ [Event.nativeCall s] ++ checkTrace flag
    ∧ Event.acquireGIL ∉ [Event.nativeCall s] ++ checkTrace flag := by
  cases flag <;> simp [checkTrace]

/-- An operation that releases the cooperative execution lock around its
native work: its trace is the lock release, then one or more native
calls, then the lock re-acquisition, and only then the error check. -/
def blocksWithLockReleased (r : OpResult) (flag : Bool) : Prop :=
  ∃ calls, r.trace = Event.releaseGIL :: (calls ++ Event.acquireGIL :: checkTrace flag)
    ∧ calls ≠ []
    ∧ ∀ e ∈ calls, e.isNativeCall = true

/-- An operation that runs its native call without touching the
cooperative execution lock. -/
def runsHoldingLock (r : OpResult) : Prop :=
  Event.releaseGIL ∉ r.trace ∧ Event.acquireGIL ∉ r.trace

/-- C7: the operations classified as blocking (Clear; the draw calls
DrawArrays, DrawArraysInstanced, MultiDrawArrays; texture storage
allocation TexStorage3D; sub-image upload/download TexSubImage3D and
GetTexImage; buffer data upload NamedBufferData) release the execution
lock before their native call and re-acquire it before the error check,
while the cheap/state-only operations (the binds BindBuffer, BindTexture,
BindVertexArray; the parameter sets TexParameteri, PixelStorei; the
uniform sets Uniform2ui, Uniform1i, Uniform2f, Uniform4f, Uniform3fv)
run without releasing the lock. -/
theorem C7_lock_discipline (flag : Bool) (d : Driver)
    (mode first level x y z tgt fmt : Int) (f1 f2 f3 f4 : Float)
    (cnt w h dep stride buf p : Nat) (hp : p ≠ 0) :
    (blocksWithLockReleased (Clear flag d w) flag
      ∧ blocksWithLockReleased (DrawArrays flag d mode first cnt) flag
      ∧ blocksWithLockReleased (DrawArraysInstanced flag d mode first cnt w) flag
      ∧ blocksWithLockReleased (MultiDrawArrays flag d mode p p cnt) flag
      ∧ blocksWithLockReleased (TexStorage3D flag d tgt cnt fmt w h dep) flag
      ∧ blocksWithLockReleased (TexSubImage3D flag d tgt level x y z w h dep mode fmt p) flag
      ∧ blocksWithLockReleased (GetTexImage flag d tgt level mode fmt p) flag
      ∧ blocksWithLockReleased (NamedBufferData flag d buf w p mode) flag)
    ∧ (runsHoldingLock (BindBuffer flag d tgt buf)
      ∧ runsHoldingLock (BindTexture flag d tgt buf)
      ∧ runsHoldingLock (BindVertexArray flag d buf)
      ∧ runsHoldingLock (TexParameteri flag d tgt mode first)
      ∧ runsHoldingLock (PixelStorei flag d mode first)
      ∧ runsHoldingLock (Uniform2ui flag d mode w h)
      ∧ runsHoldingLock (Uniform1i flag d mode first)
      ∧ runsHoldingLock (Uniform2f flag d mode f1 f2)
      ∧ runsHoldingLock (Uniform4f flag d mode f1 f2 f3 f4)
      ∧ runsHoldingLock (Uniform3fv flag d mode cnt p)) := by
  have hnr := checkTrace_no_release flag
  constructor
  · refine ⟨⟨[.nativeCall "glClear"], rfl, by simp, by simp [Event.isNativeCall]⟩,
      ⟨[.nativeCall "glDrawArrays"], rfl, by simp, by simp [Event.isNativeCall]⟩,
      ⟨[.nativeCall "glDrawArraysInstanced"], rfl, by simp, by simp [Event.isNativeCall]⟩,
      ⟨[.nativeCall "glMultiDrawArrays"], rfl, by simp, by simp [Event.isNativeCall]⟩,
      ⟨[.nativeCall "glTexStorage3D"], rfl, by simp, by simp [Event.isNativeCall]⟩,
      ⟨[.nativeCall "glTexSubImage3D"], ?_, by simp, by simp [Event.isNativeCall]⟩,
      ⟨[.nativeCall "glGetTexImage"], ?_, by simp, by simp [Event.isNativeCall]⟩, ?_⟩
    · simp [TexSubImage3D, hp]
    · simp [GetTexImage, hp]
    · cases hv : d.glewVersion45
      · refine ⟨[.nativeCall "glBindBuffer", .nativeCall "glBufferData", .nativeCall "glBindBuffer"],
          ?_, by simp, by simp [Event.isNativeCall]⟩
        simp [NamedBufferData, hp, hv]
      · refine ⟨[.nativeCall "glNamedBufferData"], ?_, by simp, by simp [Event.isNativeCall]⟩
        simp [NamedBufferData, hp, hv]
  · exact ⟨holdsLock_native_check "glBindBuffer" flag,
      holdsLock_native_check "glBindTexture" flag,
      holdsLock_native_check "glBindVertexArray" flag,
      holdsLock_native_check "glTexParameteri" flag,
      holdsLock_native_check "glPixelStorei" flag,
      holdsLock_native_check "glUniform2ui" flag,
      holdsLock_native_check "glUniform1i" flag,
      holdsLock_native_check "glUniform2f" flag,
      holdsLock_native_check "glUniform4f" flag,
      holdsLock_native_check "glUniform3fv" flag⟩

/-- C7 witness: the lock discipline at concrete inputs (pointer 8). -/
theorem C7_lock_discipline_witness :
    blocksWithLockReleased (Clear true exDriver 4) true
    ∧ runsHoldingLock (BindBuffer true exDriver 2 3) :=
  ⟨(C7_lock_discipline true exDriver 1 0 0 0 0 0 2 1 1.0 1.0 1.0 1.0 1 4 4 1 0 3 8
      (by decide)).1.1,
   (C7_lock_discipline true exDriver 1 0 0 0 0 0 2 1 1.0 1.0 1.0 1.0 1 4 4 1 0 3 8
      (by decide)).2.1⟩

/-- A non-Apple environment whose GLEW loader initialization fails. -/
def envFail : BootEnv :=
  { apple := false
    glewInitOk := false
    glewErrString := "Unknown error"
    hasTextureStorage := false
    hasTextureBufferObjectRgb32 := false }

/-- C8 counterexample: the claim says that after a bootstrap failure no
subsequent operation of the layer can run.  With the loader failed,
glewInit raises its RuntimeError, yet BindBuffer (which consults no
initialization state, like every other wrapper) still runs and
succeeds. -/
theorem C8_counterexample :
    glewInitWrapper envFail =
      .error ⟨.runtimeError, "GLEW init failed: Unknown error"⟩
    ∧ (BindBuffer true exDriver 34962 3).result = .ok .none := by
  exact ⟨rfl, rfl⟩

/-- C8 (amended): capability bootstrap fails with a fatal,
descriptively-named RuntimeError for loader initialization failure and
for each missing required extension (ARB_texture_storage checked first,
then ARB_texture_buffer_object_rgb32), succeeds when all capabilities are
present, and is a no-op success on Apple; however the layer keeps no
initialization state, so a bootstrap failure does not by itself prevent
subsequent operations from running (preventing further use is left to
the caller and to the uninitialized loader). -/
theorem C8_bootstrap (env : BootEnv) (flag : Bool) (d : Driver) (tgt : Int) (buf : Nat) :
    (env.apple = true → glewInitWrapper env = .ok .none)
    ∧ (env.apple = false → env.glewInitOk = false →
        glewInitWrapper env =
          .error ⟨.runtimeError, "GLEW init failed: " ++ env.glewErrString⟩)
    ∧ (env.apple = false → env.glewInitOk = true → env.hasTextureStorage = false →
        glewInitWrapper env =
          .error ⟨.runtimeError,
            "The OpenGL driver on this system is missing the required extension: ARB_texture_storage"⟩)
    ∧ (env.apple = false → env.glewInitOk = true → env.hasTextureStorage = true →
        env.hasTextureBufferObjectRgb32 = false →
        glewInitWrapper env =
          .error ⟨.runtimeError,
            "The OpenGL driver on this system is missing the required extension: ARB_texture_buffer_object_rgb32"⟩)
    ∧ (env.apple = false → env.glewInitOk = true → env.hasTextureStorage = true →
        env.hasTextureBufferObjectRgb32 = true → glewInitWrapper env = .ok .none)
    ∧ (∀ e, glewInitWrapper env = .error e → d.errorCode = GL_NO_ERROR →
        (BindBuffer flag d tgt buf).result = .ok .none) := by
  refine ⟨?_, ?_, ?_, ?_, ?_, ?_⟩
  · intro h; simp [glewInitWrapper, h]
  · intro h1 h2; simp [glewInitWrapper, h1, h2]
  · intro h1 h2 h3; simp [glewInitWrapper, h1, h2, h3]
  · intro h1 h2 h3 h4; simp [glewInitWrapper, h1, h2, h3, h4]
  · intro h1 h2 h3 h4; simp [glewInitWrapper, h1, h2, h3, h4]
  · intro e he h0
    simp [BindBuffer, CHECK_ERROR_ok flag d h0]

/-- C8 witness: the amended bootstrap behaviour at the concrete failing
environment and the Apple environment. -/
theorem C8_bootstrap_witness :
    glewInitWrapper envFail =
      .error ⟨.runtimeError, "GLEW init failed: " ++ envFail.glewErrString⟩
    ∧ glewInitWrapper { envFail with apple := true } = .ok .none :=
  ⟨(C8_bootstrap envFail true exDriver 2 3).2.1 rfl rfl,
   (C8_bootstrap { envFail with apple := true } true exDriver 2 3).1 rfl⟩

/-- C9: registry population publishes the fixed constant table in source
order through the load-time call (modelled from the spec as the single
invocation moduleLoadRegistry): when every publish succeeds, the whole
table is published with no failure; when some publish fails, population
aborts at the first failing constant — exactly the names strictly before
it are published — and a MemoryError is reported, so no full registry is
silently produced. -/
theorem C9_constant_registry (addOk : String → Bool) :
    (glConstantNames.all addOk = true →
      moduleLoadRegistry addOk = (glConstantNames, Option.none))
    ∧ (glConstantNames.all addOk = false →
      moduleLoadRegistry addOk =
        (glConstantNames.takeWhile addOk, some ⟨.memoryError, ""⟩)) := by
  unfold moduleLoadRegistry add_module_gl_constants
  rw [addConstantsFrom_eq]
  constructor
  · intro h
    have ht : glConstantNames.takeWhile addOk = glConstantNames :=
      List.takeWhile_eq_self_iff.mpr (by simpa [List.all_eq_true] using h)
    simp [h, ht]
  · intro h; simp [h]

/-- C9 witness: with every publish succeeding the full table is
published; with GL_TRUE failing, population stops after the 11 constants
before it and reports MemoryError. -/
theorem C9_constant_registry_witness :
    moduleLoadRegistry (fun _ => true) = (glConstantNames, Option.none)
    ∧ moduleLoadRegistry (fun nm => !(nm == "GL_TRUE")) =
        (glConstantNames.takeWhile (fun nm => !(nm == "GL_TRUE")),
         some ⟨.memoryError, ""⟩) :=
  ⟨(C9_constant_registry (fun _ => true)).1 (by decide),
   (C9_constant_registry (fun nm => !(nm == "GL_TRUE"))).2 (by decide)⟩

end KittyGL
